import Mathlib

/-!
Verification of the `ubertooth-one-connector` USB crate
(`crates/usb/src/{constants,error,protocol,device,commands}.rs`)
against its natural-language specification.

Modelling conventions:
* Machine bytes (`u8`) are `Nat` values; where a claim needs the `u8`
  range, a `< 256` hypothesis is added.  `u32` values are `Nat` with a
  `< 2^32` bound where it matters.  `i8`/`i32` values are `Int`;
  Rust's truncating `i32` division is `Int.tdiv`.
* Rust `Vec<u8>` / `&[u8]` buffers are `List Nat`.
* Error payloads (message strings, `timeout_ms`, `cmd`, …) are elided:
  the claims only discriminate error constructors.
* The USB transport (libusb via `rusb`) is an oracle `UsbEnv` supplying
  the outcome of each hardware interaction; the Rust error-mapping from
  `rusb::Error` to `UsbError` is embedded from `device.rs`.
* Stateful methods are explicit state passing over `UbertoothDevice`,
  plus a trace (`List Transfer`) recording every USB transfer attempted,
  so that "issues zero/one transfers" is provable.
-/

namespace Ubertooth

/-! ## constants.rs -/

/-- `BLE_CHANNEL_MAX: u8 = 39` (constants.rs). -/
def BLE_CHANNEL_MAX : Nat := 39

/-- `CMD_SET_CHANNEL: u8 = 12`. -/
def CMD_SET_CHANNEL : Nat := 12

/-- `CMD_SET_MODULATION: u8 = 7`. -/
def CMD_SET_MODULATION : Nat := 7

/-- `CMD_STOP: u8 = 48`. -/
def CMD_STOP : Nat := 48

/-- `CMD_BTLE_SET_ACCESS_ADDRESS: u8 = 54`. -/
def CMD_BTLE_SET_ACCESS_ADDRESS : Nat := 54

/-- `CMD_BTLE_SNIFF_AA: u8 = 59`. -/
def CMD_BTLE_SNIFF_AA : Nat := 59

/-- `MOD_BT_LOW_ENERGY: u8 = 1`. -/
def MOD_BT_LOW_ENERGY : Nat := 1

/-- `CMD_GET_BOARD_ID: u8 = 6`. -/
def CMD_GET_BOARD_ID : Nat := 6

/-- `CMD_GET_REV_NUM: u8 = 49`. -/
def CMD_GET_REV_NUM : Nat := 49

/-- `CMD_GET_COMPILE_INFO: u8 = 50`. -/
def CMD_GET_COMPILE_INFO : Nat := 50

/-- `CMD_GET_SERIAL: u8 = 51`. -/
def CMD_GET_SERIAL : Nat := 51

/-- `CMD_GET_API_VERSION: u8 = 62`. -/
def CMD_GET_API_VERSION : Nat := 62

/-- `PKT_TYPE_STATUS: u8 = 0`. -/
def PKT_TYPE_STATUS : Nat := 0

/-- `PKT_TYPE_SPECAN: u8 = 1`. -/
def PKT_TYPE_SPECAN : Nat := 1

/-- `PKT_TYPE_LE_PACKET: u8 = 2`. -/
def PKT_TYPE_LE_PACKET : Nat := 2

/-! ## error.rs -/

/-- Errors produced by the `rusb` library, as far as `device.rs`
discriminates them (`Timeout`, `NoDevice`, `Io`, `Access`; everything
else falls into the catch-all arms). -/
inductive RusbError where
  | Timeout
  | NoDevice
  | Io
  | Access
  | Other
  deriving DecidableEq, Repr

/-- `UsbError` (error.rs), with message/field payloads elided except the
wrapped library error. -/
inductive UsbError where
  | UsbLibrary (e : RusbError)
  | DeviceNotFound
  | MultipleDevices
  | AlreadyOpen
  | NotOpen
  | PermissionDenied
  | Timeout
  | ControlTransferFailed
  | BulkTransferFailed
  | InvalidPacket
  | FirmwareTooOld
  | UnsupportedBoard
  | InvalidParameter
  | Disconnected
  | Io
  deriving DecidableEq, Repr

/-! ## protocol.rs : UsbPacketHeader -/

/-- Reinterpret a byte as a Rust `i8` (`data[7] as i8`). -/
def byteToI8 (b : Nat) : Int :=
  if b < 128 then (b : Int) else (b : Int) - 256

/-- Cast a Rust `i8` to `u8` (`self.rssi as u8`): two's complement. -/
def i8ToByte (r : Int) : Nat :=
  (r % 256).toNat

/-- `UsbPacketHeader` (protocol.rs): the 14-byte USB packet header. -/
structure UsbPacketHeader where
  pkt_type : Nat
  status : Nat
  channel : Nat
  clock : Nat
  rssi : Int
  reserved : List Nat
  deriving DecidableEq, Repr

namespace UsbPacketHeader

/-- `UsbPacketHeader::from_bytes`: fails on fewer than 14 bytes, else
reads the fields (clock little-endian from bytes 3..7, rssi as `i8`). -/
def from_bytes (data : List Nat) : Except UsbError UsbPacketHeader :=
  if data.length < 14 then
    .error .InvalidPacket
  else
    .ok { pkt_type := data.getD 0 0
          status := data.getD 1 0
          channel := data.getD 2 0
          clock := data.getD 3 0 + 256 * data.getD 4 0
                   + 65536 * data.getD 5 0 + 16777216 * data.getD 6 0
          rssi := byteToI8 (data.getD 7 0)
          reserved := [data.getD 8 0, data.getD 9 0, data.getD 10 0,
                       data.getD 11 0, data.getD 12 0, data.getD 13 0] }

/-- `UsbPacketHeader::to_bytes`: serialize to a 14-byte buffer. -/
def to_bytes (h : UsbPacketHeader) : List Nat :=
  [h.pkt_type, h.status, h.channel,
   h.clock % 256, h.clock / 256 % 256, h.clock / 65536 % 256,
   h.clock / 16777216 % 256,
   i8ToByte h.rssi] ++ h.reserved

/-- Field values representable by the Rust struct
(`u8` / `u32` / `i8` / `[u8; 6]`). -/
def Valid (h : UsbPacketHeader) : Prop :=
  h.pkt_type < 256 ∧ h.status < 256 ∧ h.channel < 256 ∧
  h.clock < 4294967296 ∧ -128 ≤ h.rssi ∧ h.rssi < 128 ∧
  h.reserved.length = 6 ∧ ∀ b ∈ h.reserved, b < 256

end UsbPacketHeader

/-! ## protocol.rs : UsbPacket -/

/-- `UsbPacket` (protocol.rs): header plus payload. -/
structure UsbPacket where
  header : UsbPacketHeader
  payload : List Nat
  deriving DecidableEq, Repr

namespace UsbPacket

/-- `UsbPacket::from_bytes`: fails on fewer than 14 bytes; otherwise the
header is parsed from `data[0..14]` and every remaining byte is payload. -/
def from_bytes (data : List Nat) : Except UsbError UsbPacket :=
  if data.length < 14 then
    .error .InvalidPacket
  else
    match UsbPacketHeader.from_bytes (data.take 14) with
    | .error e => .error e
    | .ok header => .ok { header := header, payload := data.drop 14 }

/-- `UsbPacket::is_ble`. -/
def is_ble (pkt : UsbPacket) : Bool :=
  pkt.header.pkt_type == PKT_TYPE_LE_PACKET

end UsbPacket

/-! ## UTF-8 (Rust `String::from_utf8`)

`BlePacket::device_name` keeps a candidate name only when
`String::from_utf8` accepts its bytes, so the loop's control flow depends
on UTF-8 validity.  We embed the standard UTF-8 decoding (RFC 3629: no
surrogates, no overlong forms, code points ≤ U+10FFFF), which is exactly
what Rust's `String::from_utf8` validates. -/

/-- Whether a byte is a UTF-8 continuation byte (`10xxxxxx`). -/
def isCont (b : Nat) : Bool :=
  128 ≤ b && b < 192

/-- Decode a UTF-8 byte sequence to code points; `none` on any invalid
sequence (mirrors the `Err` case of `String::from_utf8`). -/
def utf8Decode : List Nat → Option (List Nat)
  | [] => some []
  | b0 :: rest =>
    if b0 < 128 then
      -- 1-byte sequence (ASCII)
      (utf8Decode rest).map (fun cs => b0 :: cs)
    else if b0 < 194 then
      -- continuation byte or overlong 2-byte lead (0xC0/0xC1)
      none
    else if b0 < 224 then
      -- 2-byte sequence
      match rest with
      | b1 :: rest1 =>
        if isCont b1 then
          (utf8Decode rest1).map (fun cs => ((b0 - 192) * 64 + (b1 - 128)) :: cs)
        else none
      | [] => none
    else if b0 < 240 then
      -- 3-byte sequence; 0xE0 forbids overlongs, 0xED forbids surrogates
      match rest with
      | b1 :: b2 :: rest2 =>
        let lo1 := if b0 = 224 then 160 else 128
        let hi1 := if b0 = 237 then 160 else 192
        if (lo1 ≤ b1 && b1 < hi1) && isCont b2 then
          (utf8Decode rest2).map
            (fun cs => ((b0 - 224) * 4096 + (b1 - 128) * 64 + (b2 - 128)) :: cs)
        else none
      | _ => none
    else if b0 < 245 then
      -- 4-byte sequence; 0xF0 forbids overlongs, 0xF4 caps at U+10FFFF
      match rest with
      | b1 :: b2 :: b3 :: rest3 =>
        let lo1 := if b0 = 240 then 144 else 128
        let hi1 := if b0 = 244 then 144 else 192
        if ((lo1 ≤ b1 && b1 < hi1) && isCont b2) && isCont b3 then
          (utf8Decode rest3).map
            (fun cs => ((b0 - 240) * 262144 + (b1 - 128) * 4096
                       + (b2 - 128) * 64 + (b3 - 128)) :: cs)
        else none
      | _ => none
    else none

/-- The Lean `String` for a list of decoded code points. -/
def codePointsToString (cs : List Nat) : String :=
  String.mk (cs.map Char.ofNat)

/-- `String::from_utf8(bytes)` as an `Option String`. -/
def stringFromUtf8 (bs : List Nat) : Option String :=
  (utf8Decode bs).map codePointsToString

/-! ## protocol.rs : BlePacket -/

/-- `BlePacket` (protocol.rs). -/
structure BlePacket where
  access_address : Nat
  pdu_header : Nat
  length : Nat
  payload : List Nat
  crc : List Nat
  rssi : Int
  channel : Nat
  timestamp : Nat
  deriving DecidableEq, Repr

namespace BlePacket

/-- `BlePacket::from_usb_packet`: rejects non-BLE packets and payloads
shorter than 10 bytes; reads the access address (little-endian u32 from
payload[0..4]), PDU header (payload[4]) and length (payload[5]); rejects
payloads shorter than `6 + length + 3`; the BLE payload is
`payload[6 .. 6+length]` and the CRC the next 3 bytes. -/
def from_usb_packet (pkt : UsbPacket) : Except UsbError BlePacket :=
  if !pkt.is_ble then
    .error .InvalidPacket
  else if pkt.payload.length < 10 then
    .error .InvalidPacket
  else
    let payload := pkt.payload
    let access_address := payload.getD 0 0 + 256 * payload.getD 1 0
        + 65536 * payload.getD 2 0 + 16777216 * payload.getD 3 0
    let pdu_header := payload.getD 4 0
    let length := payload.getD 5 0
    let payload_end := 6 + length
    if payload.length < payload_end + 3 then
      .error .InvalidPacket
    else
      .ok { access_address := access_address
            pdu_header := pdu_header
            length := length
            payload := (payload.drop 6).take length
            crc := [payload.getD payload_end 0, payload.getD (payload_end + 1) 0,
                    payload.getD (payload_end + 2) 0]
            rssi := pkt.header.rssi
            channel := pkt.header.channel
            timestamp := pkt.header.clock }

/-- `BlePacket::advertiser_address`: only for PDU types (low nibble of
the PDU header, `& 0x0F` = `% 16`) up to 6 and payloads of at least 6
bytes; returns the first 6 payload bytes. -/
def advertiser_address (p : BlePacket) : Option (List Nat) :=
  let pdu_type := p.pdu_header % 16
  if pdu_type ≤ 6 && p.payload.length ≥ 6 then
    some (p.payload.take 6)
  else
    none

/-- The loop of `BlePacket::device_name`, walking AD structures over
`ad_data` from `offset`.  Each iteration either returns a decoded name,
breaks (`none`) on truncation or a zero length byte, or advances by
`1 + length`.  The `fuel` argument bounds the number of iterations to
keep the recursion structural; since each iteration strictly increases
`offset` while `offset < ad.length` is required to continue, any fuel
exceeding `ad.length - offset` yields the loop's true result
(`deviceNameLoop_fuel_irrelevant` below), so the fuel never cuts an
execution short. -/
def deviceNameLoop (ad : List Nat) : Nat → Nat → Option String
  | 0, _ => none
  | fuel + 1, offset =>
    if offset < ad.length then
      if ad.length ≤ offset + 1 then
        none
      else
        let len := ad.getD offset 0
        if len = 0 then
          none
        else
          let ad_type := ad.getD (offset + 1) 0
          if (ad_type = 8 ∨ ad_type = 9) ∧ offset + 2 + len - 1 ≤ ad.length
          then
            let name_bytes := (ad.drop (offset + 2)).take (len - 1)
            match stringFromUtf8 name_bytes with
            | some name => some name
            | none => deviceNameLoop ad fuel (offset + 1 + len)
          else
            deviceNameLoop ad fuel (offset + 1 + len)
    else
      none

/-- `BlePacket::device_name`: `self.payload.get(6..)?` yields the AD
data only when the payload has at least 6 bytes, then the loop walks it
from offset 0 (with provably sufficient fuel). -/
def device_name (p : BlePacket) : Option String :=
  if p.payload.length < 6 then
    none
  else
    let ad := p.payload.drop 6
    deviceNameLoop ad (ad.length + 1) 0

end BlePacket

/-! ## device.rs : UbertoothDevice

The libusb transport is an oracle (`UsbEnv`).  Every transfer the code
actually submits to the transport is appended to a trace, so "issues
zero / one transfers" is a statement about the trace.  The Rust handle
is behind `Arc<Mutex<…>>`; the claims are about the sequential behaviour
of single calls, so the locking is elided and the handle is the plain
`Option` it guards. -/

/-- Record of one attempted USB transfer. -/
inductive Transfer where
  | ctrlOut (request : Nat) (value : Nat)
  | ctrlIn (request : Nat)
  | bulkIn
  | bulkOut
  deriving DecidableEq, Repr

/-- Transport oracle: the outcomes the `rusb` layer returns for each
hardware interaction during the execution being analysed. -/
structure UsbEnv where
  /-- Number of devices matching the Ubertooth vendor/product ids. -/
  deviceCount : Nat
  /-- Outcome of `device.open()` (`none` = success). -/
  openErr : Option RusbError
  /-- Whether `handle.kernel_driver_active(0)` returns `Ok(true)`. -/
  kernelDriverActive : Bool
  /-- Outcome of `handle.detach_kernel_driver(0)`. -/
  detachErr : Option RusbError
  /-- Outcome of `handle.claim_interface(0)`. -/
  claimErr : Option RusbError
  /-- Outcome of `handle.write_control` per (request, value): bytes written. -/
  ctrlWrite : Nat → Nat → Except RusbError Nat
  /-- Outcome of `handle.read_control` per request: the bytes placed in
  the caller's buffer. -/
  ctrlRead : Nat → Except RusbError (List Nat)
  /-- Outcome of `handle.read_bulk`: the bytes read. -/
  bulkRead : Except RusbError (List Nat)
  /-- Outcome of `handle.write_bulk`: bytes written. -/
  bulkWrite : Except RusbError Nat

/-- `DeviceInfo` (protocol.rs).  The string fields are kept as the byte
lists the device returned (`from_utf8_lossy` / whitespace trim and the
`"{}.{}.{}"` decimal rendering of the API version are elided: no claim
inspects the text). -/
structure DeviceInfo where
  board_id : Nat
  firmware_version : List Nat
  api_version : List Nat
  serial_number : List Nat
  compile_info : List Nat
  deriving DecidableEq, Repr

/-- The byte string `"unknown"`, the fallback value of the optional
`DeviceInfo` fields. -/
def unknownBytes : List Nat := [117, 110, 107, 110, 111, 119, 110]

/-- `UbertoothDevice` (device.rs): handle, cached device info, index. -/
structure UbertoothDevice where
  handle : Option Unit
  device_info : Option DeviceInfo
  device_index : Nat
  deriving DecidableEq, Repr

namespace UbertoothDevice

/-- `UbertoothDevice::new`: not yet connected. -/
def new : UbertoothDevice :=
  { handle := none, device_info := none, device_index := 0 }

/-- `UbertoothDevice::is_connected`. -/
def is_connected (d : UbertoothDevice) : Bool :=
  d.handle.isSome

/-- Error mapping of `control_transfer` / `control_transfer_read`:
`rusb::Error::Timeout → Timeout`, `NoDevice | Io → Disconnected`,
anything else → `ControlTransferFailed`. -/
def mapCtrlErr : RusbError → UsbError
  | .Timeout => .Timeout
  | .NoDevice => .Disconnected
  | .Io => .Disconnected
  | _ => .ControlTransferFailed

/-- Error mapping of `bulk_read` / `bulk_write`: `Timeout → Timeout`,
`NoDevice | Io → Disconnected`, anything else → `BulkTransferFailed`. -/
def mapBulkErr : RusbError → UsbError
  | .Timeout => .Timeout
  | .NoDevice => .Disconnected
  | .Io => .Disconnected
  | _ => .BulkTransferFailed

/-- `UbertoothDevice::control_transfer` (vendor request OUT): fails with
`NotOpen` when no handle is stored, performing no transfer. -/
def control_transfer (env : UsbEnv) (d : UbertoothDevice) (request : Nat)
    (value : Nat) (tr : List Transfer) :
    Except UsbError Nat × List Transfer :=
  match d.handle with
  | none => (.error .NotOpen, tr)
  | some _ =>
    match env.ctrlWrite request value with
    | .ok len => (.ok len, tr ++ [.ctrlOut request value])
    | .error e => (.error (mapCtrlErr e), tr ++ [.ctrlOut request value])

/-- `UbertoothDevice::control_transfer_read` (vendor request IN) with a
caller buffer of `bufSize` bytes; the result is the bytes received
(truncated to the buffer size). -/
def control_transfer_read (env : UsbEnv) (d : UbertoothDevice)
    (request : Nat) (bufSize : Nat) (tr : List Transfer) :
    Except UsbError (List Nat) × List Transfer :=
  match d.handle with
  | none => (.error .NotOpen, tr)
  | some _ =>
    match env.ctrlRead request with
    | .ok bytes => (.ok (bytes.take bufSize), tr ++ [.ctrlIn request])
    | .error e => (.error (mapCtrlErr e), tr ++ [.ctrlIn request])

/-- `UbertoothDevice::bulk_read`. -/
def bulk_read (env : UsbEnv) (d : UbertoothDevice) (tr : List Transfer) :
    Except UsbError (List Nat) × List Transfer :=
  match d.handle with
  | none => (.error .NotOpen, tr)
  | some _ =>
    match env.bulkRead with
    | .ok bytes => (.ok bytes, tr ++ [.bulkIn])
    | .error e => (.error (mapBulkErr e), tr ++ [.bulkIn])

/-- `UbertoothDevice::bulk_write`. -/
def bulk_write (env : UsbEnv) (d : UbertoothDevice) (tr : List Transfer) :
    Except UsbError Nat × List Transfer :=
  match d.handle with
  | none => (.error .NotOpen, tr)
  | some _ =>
    match env.bulkWrite with
    | .ok len => (.ok len, tr ++ [.bulkOut])
    | .error e => (.error (mapBulkErr e), tr ++ [.bulkOut])

/-- `UbertoothDevice::get_board_id`: 1-byte read of `CMD_GET_BOARD_ID`;
the result is `buffer[0]` (0 when the device wrote nothing). -/
def get_board_id (env : UsbEnv) (d : UbertoothDevice) (tr : List Transfer) :
    Except UsbError Nat × List Transfer :=
  match control_transfer_read env d CMD_GET_BOARD_ID 1 tr with
  | (.ok bytes, tr1) => (.ok (bytes.headD 0), tr1)
  | (.error e, tr1) => (.error e, tr1)

/-- Shared shape of `get_firmware_version` / `get_serial_number` /
`get_compile_info`: read into a `bufSize` buffer, keep `buffer[..len]`,
trim at the first NUL. -/
def read_trimmed_string (env : UsbEnv) (d : UbertoothDevice)
    (request : Nat) (bufSize : Nat) (tr : List Transfer) :
    Except UsbError (List Nat) × List Transfer :=
  match control_transfer_read env d request bufSize tr with
  | (.ok bytes, tr1) => (.ok (bytes.takeWhile (fun b => b ≠ 0)), tr1)
  | (.error e, tr1) => (.error e, tr1)

/-- `UbertoothDevice::get_firmware_version` (`CMD_GET_REV_NUM`, 64-byte
buffer). -/
def get_firmware_version (env : UsbEnv) (d : UbertoothDevice)
    (tr : List Transfer) : Except UsbError (List Nat) × List Transfer :=
  read_trimmed_string env d CMD_GET_REV_NUM 64 tr

/-- `UbertoothDevice::get_api_version` (`CMD_GET_API_VERSION`, 4-byte
buffer): the three version bytes when at least 4 bytes arrive, otherwise
`"unknown"`. -/
def get_api_version (env : UsbEnv) (d : UbertoothDevice)
    (tr : List Transfer) : Except UsbError (List Nat) × List Transfer :=
  match control_transfer_read env d CMD_GET_API_VERSION 4 tr with
  | (.ok bytes, tr1) =>
    if bytes.length ≥ 4 then
      (.ok (bytes.take 3), tr1)
    else
      (.ok unknownBytes, tr1)
  | (.error e, tr1) => (.error e, tr1)

/-- `UbertoothDevice::get_serial_number` (`CMD_GET_SERIAL`, 64 bytes). -/
def get_serial_number (env : UsbEnv) (d : UbertoothDevice)
    (tr : List Transfer) : Except UsbError (List Nat) × List Transfer :=
  read_trimmed_string env d CMD_GET_SERIAL 64 tr

/-- `UbertoothDevice::get_compile_info` (`CMD_GET_COMPILE_INFO`,
256 bytes). -/
def get_compile_info (env : UsbEnv) (d : UbertoothDevice)
    (tr : List Transfer) : Except UsbError (List Nat) × List Transfer :=
  read_trimmed_string env d CMD_GET_COMPILE_INFO 256 tr

/-- `UbertoothDevice::refresh_device_info`: board id and firmware
version are mandatory (their errors propagate); API version, serial
number and compile info fall back to `"unknown"`; on success the info is
stored.  (The firmware-compatibility check only logs a warning.) -/
def refresh_device_info (env : UsbEnv) (d : UbertoothDevice)
    (tr : List Transfer) :
    Except UsbError Unit × UbertoothDevice × List Transfer :=
  match get_board_id env d tr with
  | (.error e, tr1) => (.error e, d, tr1)
  | (.ok board_id, tr1) =>
    match get_firmware_version env d tr1 with
    | (.error e, tr2) => (.error e, d, tr2)
    | (.ok firmware_version, tr2) =>
      let api := get_api_version env d tr2
      let api_version := match api.1 with
        | .ok v => v
        | .error _ => unknownBytes
      let serial := get_serial_number env d api.2
      let serial_number := match serial.1 with
        | .ok v => v
        | .error _ => unknownBytes
      let compile := get_compile_info env d serial.2
      let compile_info := match compile.1 with
        | .ok v => v
        | .error _ => unknownBytes
      let info : DeviceInfo :=
        { board_id := board_id
          firmware_version := firmware_version
          api_version := api_version
          serial_number := serial_number
          compile_info := compile_info }
      (.ok (), { d with device_info := some info }, compile.2)

/-- `UbertoothDevice::connect`: refuses when a handle already exists;
enumerates, opens and claims the device; stores the handle and the
index; then runs `refresh_device_info` (whose failure propagates with
the handle already stored). -/
def connect (env : UsbEnv) (d : UbertoothDevice) (device_index : Nat)
    (tr : List Transfer) :
    Except UsbError Unit × UbertoothDevice × List Transfer :=
  if d.handle.isSome then
    (.error .AlreadyOpen, d, tr)
  else if env.deviceCount = 0 then
    (.error .DeviceNotFound, d, tr)
  else if env.deviceCount ≤ device_index then
    (.error .DeviceNotFound, d, tr)
  else
    match env.openErr with
    | some .Access => (.error .PermissionDenied, d, tr)
    | some e => (.error (.UsbLibrary e), d, tr)
    | none =>
      match (if env.kernelDriverActive then env.detachErr else none) with
      | some e => (.error (.UsbLibrary e), d, tr)
      | none =>
        match env.claimErr with
        | some e => (.error (.UsbLibrary e), d, tr)
        | none =>
          let d1 := { d with handle := some (), device_index := device_index }
          refresh_device_info env d1 tr

/-- `UbertoothDevice::disconnect`: drops the handle (interface release
and driver reattach are best-effort, their errors ignored) and clears
the cached device info; always succeeds. -/
def disconnect (d : UbertoothDevice) :
    Except UsbError Unit × UbertoothDevice :=
  (.ok (), { d with handle := none, device_info := none })

/-- `UbertoothDevice::set_channel`: one control transfer of
`CMD_SET_CHANNEL` with the channel as the value word. -/
def set_channel (env : UsbEnv) (d : UbertoothDevice) (channel : Nat)
    (tr : List Transfer) : Except UsbError Unit × List Transfer :=
  match control_transfer env d CMD_SET_CHANNEL channel tr with
  | (.ok _, tr1) => (.ok (), tr1)
  | (.error e, tr1) => (.error e, tr1)

/-- `UbertoothDevice::set_modulation`: one control transfer of
`CMD_SET_MODULATION` with the modulation as the value word. -/
def set_modulation (env : UsbEnv) (d : UbertoothDevice) (modulation : Nat)
    (tr : List Transfer) : Except UsbError Unit × List Transfer :=
  match control_transfer env d CMD_SET_MODULATION modulation tr with
  | (.ok _, tr1) => (.ok (), tr1)
  | (.error e, tr1) => (.error e, tr1)

/-- `UbertoothDevice::stop`: one control transfer of `CMD_STOP`. -/
def stop (env : UsbEnv) (d : UbertoothDevice) (tr : List Transfer) :
    Except UsbError Unit × List Transfer :=
  match control_transfer env d CMD_STOP 0 tr with
  | (.ok _, tr1) => (.ok (), tr1)
  | (.error e, tr1) => (.error e, tr1)

end UbertoothDevice

/-! ## commands.rs : UbertoothCommands

The device mutex is elided (single execution); the JSON plumbing is
reduced to the typed values the claims mention.  Scanning is modelled
with the per-iteration `bulk_read` outcomes as an explicit finite
schedule: the wall-clock duration check of the Rust loop bounds the
number of iterations, which the schedule's length represents. -/

/-- Result object of a successful `configure_channel` call (the fields
of its JSON response the claims mention). -/
structure ChannelResult where
  channel : Nat
  frequency_mhz : Nat
  deriving DecidableEq, Repr

/-- `UbertoothCommands::configure_channel`: rejects `channel >
BLE_CHANNEL_MAX` with `InvalidParameter` before touching the device;
otherwise `set_channel` issues the control transfer and the response
carries `frequency_mhz = 2402 + channel`. -/
def configure_channel (env : UsbEnv) (d : UbertoothDevice) (channel : Nat)
    (tr : List Transfer) : Except UsbError ChannelResult × List Transfer :=
  if channel > BLE_CHANNEL_MAX then
    (.error .InvalidParameter, tr)
  else
    match UbertoothDevice.set_channel env d channel tr with
    | (.error e, tr1) => (.error e, tr1)
    | (.ok _, tr1) =>
      (.ok { channel := channel, frequency_mhz := 2402 + channel }, tr1)

/-- One hexadecimal digit, upper case (Rust `{:X}`). -/
def hexDigit (n : Nat) : Char :=
  if n < 10 then Char.ofNat (48 + n) else Char.ofNat (55 + n)

/-- Rust `format!("{:02X}", b)` for a `u8` value. -/
def byteHex (b : Nat) : String :=
  String.mk [hexDigit (b / 16 % 16), hexDigit (b % 16)]

/-- The MAC rendering of `scan_ble_packets`:
`format!("{:02X}:{:02X}:{:02X}:{:02X}:{:02X}:{:02X}", addr[5], addr[4],
addr[3], addr[2], addr[1], addr[0])` — byte order reversed. -/
def macString (addr : List Nat) : String :=
  byteHex (addr.getD 5 0) ++ ":" ++ byteHex (addr.getD 4 0) ++ ":" ++
  byteHex (addr.getD 3 0) ++ ":" ++ byteHex (addr.getD 2 0) ++ ":" ++
  byteHex (addr.getD 1 0) ++ ":" ++ byteHex (addr.getD 0 0)

/-- `DeviceStats` (commands.rs). -/
structure DeviceStats where
  address_type : String
  name : Option String
  rssi_sum : Int
  packet_count : Nat
  rssi_avg : Int
  deriving DecidableEq, Repr

/-- The fresh entry `or_insert` creates for a MAC seen the first time. -/
def DeviceStats.init : DeviceStats :=
  { address_type := "public", name := none, rssi_sum := 0,
    packet_count := 0, rssi_avg := 0 }

/-- The per-packet `DeviceStats` update: `packet_count += 1`,
`rssi_sum += rssi`, `rssi_avg = rssi_sum / packet_count` (Rust `i32`
division truncates toward zero: `Int.tdiv`), and the name is filled in
from the advertisement when still unknown. -/
def updateStats (stats : DeviceStats) (rssi : Int) (name : Option String) :
    DeviceStats :=
  let packet_count := stats.packet_count + 1
  let rssi_sum := stats.rssi_sum + rssi
  { stats with
      packet_count := packet_count
      rssi_sum := rssi_sum
      rssi_avg := rssi_sum.tdiv (packet_count : Int)
      name := match stats.name with
        | some n => some n
        | none => name }

/-- Association-list model of the `HashMap<String, DeviceStats>`. -/
def lookupStats (devices : List (String × DeviceStats)) (mac : String) :
    Option DeviceStats :=
  match devices with
  | [] => none
  | (k, v) :: rest => if k = mac then some v else lookupStats rest mac

/-- Store a stats entry, replacing an existing one for the same MAC. -/
def storeStats (devices : List (String × DeviceStats)) (mac : String)
    (stats : DeviceStats) : List (String × DeviceStats) :=
  match devices with
  | [] => [(mac, stats)]
  | (k, v) :: rest =>
    if k = mac then (k, stats) :: rest
    else (k, v) :: storeStats rest mac stats

/-- `ScanResult` (commands.rs), doubling as the loop's running state. -/
structure ScanResult where
  devices : List (String × DeviceStats)
  total_packets : Nat
  preview : List String
  deriving DecidableEq, Repr

/-- The empty state the scan starts from. -/
def ScanResult.empty : ScanResult :=
  { devices := [], total_packets := 0, preview := [] }

/-- The preview line `format!("{}: {} (RSSI: {})", mac, name, rssi)`. -/
def previewLine (mac : String) (name : Option String) (rssi : Int) :
    String :=
  mac ++ ": " ++ (match name with | some n => n | none => "Unknown")
      ++ " (RSSI: " ++ toString rssi ++ ")"

/-- The `Ok(len)` body of the scan loop: parse the buffer as a USB
packet when at least 14 bytes arrived, and for a decodable BLE packet
count it, update the advertiser's `DeviceStats` and extend the preview
while it has fewer than 5 entries.  Any parse failure is skipped. -/
def processPacket (st : ScanResult) (data : List Nat) : ScanResult :=
  if data.length ≥ 14 then
    match UsbPacket.from_bytes data with
    | .error _ => st
    | .ok usb_pkt =>
      if usb_pkt.is_ble then
        match BlePacket.from_usb_packet usb_pkt with
        | .error _ => st
        | .ok ble_pkt =>
          let st1 := { st with total_packets := st.total_packets + 1 }
          match ble_pkt.advertiser_address with
          | none => st1
          | some addr =>
            let mac := macString addr
            let stats0 := (lookupStats st1.devices mac).getD DeviceStats.init
            let stats := updateStats stats0 ble_pkt.rssi ble_pkt.device_name
            let preview :=
              if st1.preview.length < 5 then
                st1.preview ++ [previewLine mac stats.name ble_pkt.rssi]
              else
                st1.preview
            { st1 with devices := storeStats st1.devices mac stats
                       preview := preview }
      else st
  else st

/-- One `bulk_read` outcome per loop iteration (already mapped to
`UsbError` by `bulk_read`). -/
abbrev ReadOutcome := Except UsbError (List Nat)

/-- The capture loop of `UbertoothCommands::scan_ble_packets` over the
schedule of bulk-read outcomes: `Ok` processes the packet, a `Timeout`
error sleeps and continues, any other error breaks out of the loop; the
schedule running out is the scan duration elapsing. -/
def scanLoop (st : ScanResult) : List ReadOutcome → ScanResult
  | [] => st
  | r :: rest =>
    match r with
    | .ok data => scanLoop (processPacket st data) rest
    | .error e => if e = .Timeout then scanLoop st rest else st

/-- `UbertoothCommands::scan_ble_packets`: runs the loop from the empty
state and wraps whatever accumulated in `Ok` — the function's only
return is `Ok(ScanResult { … })`, transport errors never escape it. -/
def scan_ble_packets (reads : List ReadOutcome) :
    Except UsbError ScanResult :=
  .ok (scanLoop ScanResult.empty reads)

/-- The stale-data flush before the scan: five `bulk_read` attempts
whose results (including errors) are discarded; only the trace grows. -/
def flushReads (env : UsbEnv) (d : UbertoothDevice) :
    Nat → List Transfer → List Transfer
  | 0, tr => tr
  | n + 1, tr => flushReads env d n (UbertoothDevice.bulk_read env d tr).2

/-- `UbertoothCommands::btle_scan`: validates the advertising channel
(37/38/39); configures modulation, channel, the advertising access
address and sniffing (each a control transfer whose error propagates);
flushes stale bulk data; runs the capture loop (`scan_ble_packets` over
the read schedule); then issues `CMD_STOP` — whose failure propagates
via `usb_result!(…)?` and fails the whole call — and, when `save_pcap`,
creates the capture directory, whose `std::fs::create_dir_all(…)?`
failure (modelled by `mkdirOk`) also fails the whole call as an IO
error.  On success the response carries the accumulated `ScanResult`
(the capture-id timestamp and pcap path strings are elided). -/
def btle_scan (env : UsbEnv) (d : UbertoothDevice) (channel : Nat)
    (save_pcap mkdirOk : Bool) (reads : List ReadOutcome)
    (tr : List Transfer) : Except UsbError ScanResult × List Transfer :=
  if channel ≠ 37 ∧ channel ≠ 38 ∧ channel ≠ 39 then
    (.error .InvalidParameter, tr)
  else
    match UbertoothDevice.set_modulation env d MOD_BT_LOW_ENERGY tr with
    | (.error e, tr1) => (.error e, tr1)
    | (.ok _, tr1) =>
      match UbertoothDevice.set_channel env d channel tr1 with
      | (.error e, tr2) => (.error e, tr2)
      | (.ok _, tr2) =>
        match UbertoothDevice.control_transfer env d
            CMD_BTLE_SET_ACCESS_ADDRESS 0 tr2 with
        | (.error e, tr3) => (.error e, tr3)
        | (.ok _, tr3) =>
          match UbertoothDevice.control_transfer env d
              CMD_BTLE_SNIFF_AA 0 tr3 with
          | (.error e, tr4) => (.error e, tr4)
          | (.ok _, tr4) =>
            let tr5 := flushReads env d 5 tr4
            match scan_ble_packets reads with
            | .error e => (.error e, tr5)
            | .ok scan_result =>
              match UbertoothDevice.stop env d tr5 with
              | (.error e, tr6) => (.error e, tr6)
              | (.ok _, tr6) =>
                if save_pcap && !mkdirOk then
                  (.error .Io, tr6)
                else
                  (.ok scan_result, tr6)

/-! ## Concrete sample inputs and invariants -/

/-- A concrete BLE-typed header used by the concrete examples. -/
def sampleHdr : UsbPacketHeader :=
  { pkt_type := 2, status := 0, channel := 37, clock := 99,
    rssi := -60, reserved := [0, 0, 0, 0, 0, 0] }

/-- A concrete well-formed BLE USB packet (15-byte BLE payload,
`length = 6`). -/
def goodBle : UsbPacket :=
  { header := sampleHdr,
    payload := [214, 190, 137, 142, 5, 6, 1, 2, 3, 4, 5, 6, 10, 11, 12] }

/-- A concrete BLE USB packet whose payload is shorter than 10 bytes. -/
def shortBle : UsbPacket :=
  { header := sampleHdr, payload := [1, 2, 3, 4, 5] }

/-- A concrete BLE packet with PDU type 7 (no advertiser address). -/
def advPkt7 : BlePacket :=
  { access_address := 0, pdu_header := 7, length := 6,
    payload := [1, 2, 3, 4, 5, 6], crc := [0, 0, 0],
    rssi := 0, channel := 37, timestamp := 0 }

/-- A concrete advertising BLE packet with PDU type 0 and the address
bytes `[1,2,3,4,5,6]`. -/
def advPkt0 : BlePacket :=
  { access_address := 0, pdu_header := 0, length := 6,
    payload := [1, 2, 3, 4, 5, 6], crc := [0, 0, 0],
    rssi := 0, channel := 37, timestamp := 0 }

/-- A concrete BLE advertisement carrying the AD structure
`{length: 4, type: 0x09, "Foo"}` after the 6 address bytes. -/
def fooBle : BlePacket :=
  { access_address := 0, pdu_header := 0, length := 11,
    payload := [1, 2, 3, 4, 5, 6] ++ [4, 9, 70, 111, 111],
    crc := [0, 0, 0], rssi := 0, channel := 37, timestamp := 0 }

/-- A concrete BLE advertisement whose first AD structure has length 0. -/
def zeroAdBle : BlePacket :=
  { access_address := 0, pdu_header := 0, length := 9,
    payload := [1, 2, 3, 4, 5, 6] ++ [0, 9, 70],
    crc := [0, 0, 0], rssi := 0, channel := 37, timestamp := 0 }

/-- A transport on which every hardware interaction succeeds. -/
def envOk : UsbEnv :=
  { deviceCount := 1, openErr := none, kernelDriverActive := false,
    detachErr := none, claimErr := none,
    ctrlWrite := fun _ _ => .ok 0,
    ctrlRead := fun _ => .ok [1, 2, 3, 4],
    bulkRead := .ok [], bulkWrite := .ok 0 }

/-- A transport with no matching device present. -/
def envZero : UsbEnv :=
  { envOk with deviceCount := 0 }

/-- A transport on which enumeration, open and claim succeed but every
control read (in particular the board-id read) times out. -/
def envBoardFail : UsbEnv :=
  { envOk with ctrlRead := fun _ => .error .Timeout }

/-- A device state holding a handle (as after a successful open). -/
def devConn : UbertoothDevice :=
  { handle := some (), device_info := none, device_index := 0 }

/-- A transport modelling a device that disconnects during the scan:
every setup control write succeeds, but the post-scan `CMD_STOP`
transfer fails with `NoDevice` (mapped to `Disconnected`). -/
def envDisconnect : UsbEnv :=
  { envOk with
      ctrlWrite := fun req _ =>
        if req = CMD_STOP then .error .NoDevice else .ok 0 }

/-- A concrete BLE advertisement USB transfer: BLE-typed header on
channel 37 with the given RSSI byte, advertising access address, PDU
header 0, a 6-byte advertiser address `[1,2,3,4,5,6]` and a 3-byte
CRC. -/
def samplePkt (rssiByte : Nat) : List Nat :=
  [2, 0, 37, 0, 0, 0, 0, rssiByte, 0, 0, 0, 0, 0, 0] ++
  [214, 190, 137, 142, 0, 6, 1, 2, 3, 4, 5, 6, 170, 187, 204]

/-- Every device entry of a scan state has a positive packet count and
an RSSI average equal to the truncating division of its RSSI sum by that
count. -/
def StatsInv (st : ScanResult) : Prop :=
  ∀ mac stats, lookupStats st.devices mac = some stats →
    stats.rssi_avg = stats.rssi_sum.tdiv (stats.packet_count : Int) ∧
    0 < stats.packet_count

/-! ## Helper lemmas -/

/-- Round-tripping an in-range `i8` through its `u8` two's-complement
cast is the identity. -/
theorem byteToI8_i8ToByte (r : Int) (h1 : -128 ≤ r) (h2 : r < 128) :
    byteToI8 (i8ToByte r) = r := by
  unfold byteToI8 i8ToByte
  split <;> omega

/-- A list of length 6 is its six `getD` entries. -/
theorem list_eq_of_length_six (l : List Nat) (hl : l.length = 6) :
    l = [l.getD 0 0, l.getD 1 0, l.getD 2 0,
         l.getD 3 0, l.getD 4 0, l.getD 5 0] := by
  rcases l with _ | ⟨a, _ | ⟨b, _ | ⟨c, _ | ⟨d, _ | ⟨e, _ | ⟨f, rest⟩⟩⟩⟩⟩⟩ <;>
    simp_all [List.getD]

/-- `getD` of a `take`-prefix agrees with the original list inside the
prefix. -/
theorem getD_take_of_lt (l : List Nat) (n i : Nat) (h : i < n) :
    (l.take n).getD i 0 = l.getD i 0 := by
  simp [List.getD, List.getElem?_take, h]

/-- Recomposing a 32-bit value from its four little-endian base-256
digits. -/
theorem le32_roundtrip (c : Nat) (h : c < 4294967296) :
    c % 256 + 256 * (c / 256 % 256) + 65536 * (c / 65536 % 256)
      + 16777216 * (c / 16777216 % 256) = c := by
  have e1 : c / 65536 = c / 256 / 256 := by
    rw [Nat.div_div_eq_div_mul]
  have e2 : c / 16777216 = c / 256 / 256 / 256 := by
    rw [Nat.div_div_eq_div_mul, Nat.div_div_eq_div_mul]
  rw [e1, e2]
  omega

/-! ## Claims -/

/-- C7: Header encode/decode round-trip — for every `UsbPacketHeader`
value (arbitrary representable packet_type, status, channel, clock,
rssi, reserved), decoding the 14-byte result of `to_bytes` with
`from_bytes` succeeds and yields the original header field for field
(clock via little-endian bytes 3..7, rssi via signed reinterpretation of
byte 7). -/
theorem header_roundtrip (h : UsbPacketHeader) (hv : h.Valid) :
    UsbPacketHeader.from_bytes h.to_bytes = .ok h := by
  obtain ⟨pt, st, ch, ck, rs, rv⟩ := h
  obtain ⟨h1, h2, h3, h4, h5, h6, h7, h8⟩ := hv
  have hrv := list_eq_of_length_six rv h7
  rw [hrv]
  simp [UsbPacketHeader.from_bytes, UsbPacketHeader.to_bytes, List.getD,
        byteToI8_i8ToByte rs h5 h6]
  exact le32_roundtrip ck h4

/-- Witness for C7 at a concrete header. -/
theorem header_roundtrip_witness :
    let h : UsbPacketHeader :=
      { pkt_type := 2, status := 0, channel := 38, clock := 3735928559,
        rssi := -45, reserved := [1, 2, 3, 4, 5, 6] }
    h.Valid ∧ UsbPacketHeader.from_bytes h.to_bytes = .ok h := by
  refine ⟨?_, header_roundtrip _ ?_⟩ <;>
    exact ⟨by norm_num, by norm_num, by norm_num, by norm_num, by norm_num,
           by norm_num, by norm_num, by decide⟩

/-- C10: header and packet decoding accept over-length input — for every
buffer of 14 or more bytes `UsbPacketHeader::from_bytes` succeeds using
only the first 14 bytes, and `UsbPacket::from_bytes` succeeds treating
every byte from offset 14 onward as payload with no upper bound
enforced. -/
theorem decode_over_length_input (data : List Nat)
    (hlen : 14 ≤ data.length) :
    UsbPacketHeader.from_bytes data
        = UsbPacketHeader.from_bytes (data.take 14) ∧
    (∃ hd, UsbPacketHeader.from_bytes data = .ok hd) ∧
    (∃ hd, UsbPacket.from_bytes data
        = .ok { header := hd, payload := data.drop 14 }) := by
  have htk : (data.take 14).length = 14 := by
    simp [List.length_take]
    omega
  have hagree : UsbPacketHeader.from_bytes data
      = UsbPacketHeader.from_bytes (data.take 14) := by
    unfold UsbPacketHeader.from_bytes
    rw [htk]
    simp only [show ¬ data.length < 14 by omega, if_false, lt_irrefl,
               Nat.lt_irrefl]
    norm_num [getD_take_of_lt]
  have hok : ∃ hd, UsbPacketHeader.from_bytes data = .ok hd := by
    unfold UsbPacketHeader.from_bytes
    simp [show ¬ data.length < 14 by omega]
  obtain ⟨hd, hok⟩ := hok
  refine ⟨hagree, ⟨hd, hok⟩, ⟨hd, ?_⟩⟩
  unfold UsbPacket.from_bytes
  rw [← hagree, hok]
  simp [show ¬ data.length < 14 by omega]

/-- Witness for C10: a 70-byte buffer decodes, with all 56 bytes past
the header as payload — beyond the documented 50-byte payload maximum. -/
theorem decode_over_length_input_witness :
    let data := List.replicate 70 7
    14 ≤ data.length ∧
    (∃ hd, UsbPacket.from_bytes data
        = .ok { header := hd, payload := data.drop 14 }) ∧
    (data.drop 14).length = 56 := by
  exact ⟨by norm_num, (decode_over_length_input _ (by norm_num)).2.2,
         by norm_num⟩

/-- C4: `BlePacket::from_usb_packet`, given a `UsbPacket` of BLE type,
fails with `InvalidPacket` whenever the payload is shorter than 10 bytes
or shorter than `6 + length + 3` bytes (where `length = payload[5]`);
otherwise it succeeds with access_address = little-endian u32 from
payload[0..4], pdu_header = payload[4], length = payload[5], payload
slice = payload[6 .. 6+length], crc = the next 3 bytes, and
rssi/channel/timestamp copied from the enclosing packet's header. -/
theorem ble_from_usb_packet_spec (pkt : UsbPacket)
    (hble : pkt.is_ble = true) :
    (pkt.payload.length < 10 ∨
        pkt.payload.length < 6 + pkt.payload.getD 5 0 + 3 →
      BlePacket.from_usb_packet pkt = .error .InvalidPacket) ∧
    (10 ≤ pkt.payload.length →
      6 + pkt.payload.getD 5 0 + 3 ≤ pkt.payload.length →
      BlePacket.from_usb_packet pkt = .ok
        { access_address := pkt.payload.getD 0 0 + 256 * pkt.payload.getD 1 0
            + 65536 * pkt.payload.getD 2 0 + 16777216 * pkt.payload.getD 3 0
          pdu_header := pkt.payload.getD 4 0
          length := pkt.payload.getD 5 0
          payload := (pkt.payload.drop 6).take (pkt.payload.getD 5 0)
          crc := [pkt.payload.getD (6 + pkt.payload.getD 5 0) 0,
                  pkt.payload.getD (6 + pkt.payload.getD 5 0 + 1) 0,
                  pkt.payload.getD (6 + pkt.payload.getD 5 0 + 2) 0]
          rssi := pkt.header.rssi
          channel := pkt.header.channel
          timestamp := pkt.header.clock }) := by
  unfold BlePacket.from_usb_packet
  rw [hble]
  simp only [Bool.not_true, Bool.false_eq_true, if_false]
  constructor
  · intro hs
    rcases hs with hs | hs
    · split_ifs with h1 h2 <;> first | rfl | omega
    · split_ifs with h1 h2 <;> first | rfl | omega
  · intro h10 hlen
    split_ifs with h1 h2 <;> first | rfl | omega

/-- Witness for C4: a 15-byte BLE payload with `length = 6` decodes to
the stated fields; a 5-byte payload is rejected. -/
theorem ble_from_usb_packet_spec_witness :
    BlePacket.from_usb_packet goodBle = .ok
      { access_address := 2391391958, pdu_header := 5, length := 6,
        payload := [1, 2, 3, 4, 5, 6], crc := [10, 11, 12],
        rssi := -60, channel := 37, timestamp := 99 } ∧
    BlePacket.from_usb_packet shortBle = .error .InvalidPacket := by
  constructor
  · have h := (ble_from_usb_packet_spec goodBle (by decide)).2
      (by norm_num [goodBle]) (by norm_num [goodBle])
    rw [h]
    rfl
  · exact (ble_from_usb_packet_spec shortBle (by decide)).1
      (by norm_num [shortBle])

/-- C5: `advertiser_address` returns `none` for every BLE packet whose
PDU type (low nibble of the PDU header) exceeds 6 or whose payload has
fewer than 6 bytes; for PDU type ≤ 6 and payload ≥ 6 bytes it returns
the first 6 payload bytes, rendered by the scanner as a colon-separated
MAC string with byte order reversed, so `[1,2,3,4,5,6]` renders as
`"06:05:04:03:02:01"`. -/
theorem advertiser_address_spec (p : BlePacket) :
    (6 < p.pdu_header % 16 ∨ p.payload.length < 6 →
      p.advertiser_address = none) ∧
    (p.pdu_header % 16 ≤ 6 → 6 ≤ p.payload.length →
      p.advertiser_address = some (p.payload.take 6)) ∧
    macString [1, 2, 3, 4, 5, 6] = "06:05:04:03:02:01" := by
  unfold BlePacket.advertiser_address
  refine ⟨?_, ?_, by decide⟩
  · intro h
    have hc : ¬ ((p.pdu_header % 16 ≤ 6 && p.payload.length ≥ 6) = true) := by
      simp
      omega
    simp [hc]
  · intro h1 h2
    simp [h1, h2]

/-- The result of the AD-structure walk does not depend on the
iteration bound once it exceeds `ad.length - offset`: the loop always
exits (by return, zero-length break, truncation break, or reaching the
buffer end) within that many iterations, so `device_name`'s bound of
`ad.length + 1` never cuts an execution short — the Rust loop
terminates on every input. -/
theorem deviceNameLoop_fuel_irrelevant (f₁ : Nat) :
    ∀ (f₂ : Nat) (ad : List Nat) (offset : Nat),
      ad.length - offset < f₁ → ad.length - offset < f₂ →
      BlePacket.deviceNameLoop ad f₁ offset
        = BlePacket.deviceNameLoop ad f₂ offset := by
  induction f₁ with
  | zero =>
    intro f₂ ad offset h1 h2
    omega
  | succ n ih =>
    intro f₂ ad offset h1 h2
    rcases f₂ with _ | m
    · omega
    · simp only [BlePacket.deviceNameLoop]
      split_ifs with hA hB hC hD
      · rfl
      · rfl
      · cases hsf : stringFromUtf8
            ((ad.drop (offset + 2)).take (ad.getD offset 0 - 1)) with
        | some name => rfl
        | none =>
          apply ih
          · omega
          · omega
      · apply ih
        · omega
        · omega
      · rfl

/-- A zero length byte stops the AD walk at once. -/
theorem deviceNameLoop_zero_stop (ad : List Nat) (fuel offset : Nat)
    (hz : ad.getD offset 0 = 0) :
    BlePacket.deviceNameLoop ad (fuel + 1) offset = none := by
  simp only [BlePacket.deviceNameLoop]
  split_ifs with hA hB hC hD <;> first | rfl | omega

/-- A structure whose type byte would lie past the buffer stops the AD
walk at once. -/
theorem deviceNameLoop_truncation_stop (ad : List Nat) (fuel offset : Nat)
    (ht : ad.length ≤ offset + 1) :
    BlePacket.deviceNameLoop ad (fuel + 1) offset = none := by
  simp only [BlePacket.deviceNameLoop]
  split_ifs with hA hB hC hD <;> first | rfl | omega

/-- C6: `device_name` terminates for every input payload: the AD walk's
result is independent of the iteration bound once it exceeds the buffer
length (so the loop always exits within the buffer — it never reads past
the end and never loops on malformed input), it stops on a zero-length
structure and on a truncated structure, and it returns the first
structure of type 0x08/0x09 decoded as UTF-8: for AD data
`{length:4, type:0x09, "Foo"}` it returns `"Foo"`, and for AD length 0
it returns `none`. -/
theorem device_name_spec :
    (∀ (f₁ f₂ : Nat) (ad : List Nat) (offset : Nat),
        ad.length - offset < f₁ → ad.length - offset < f₂ →
        BlePacket.deviceNameLoop ad f₁ offset
          = BlePacket.deviceNameLoop ad f₂ offset) ∧
    (∀ (ad : List Nat) (fuel offset : Nat), ad.getD offset 0 = 0 →
        BlePacket.deviceNameLoop ad (fuel + 1) offset = none) ∧
    (∀ (ad : List Nat) (fuel offset : Nat), ad.length ≤ offset + 1 →
        BlePacket.deviceNameLoop ad (fuel + 1) offset = none) ∧
    BlePacket.device_name fooBle = some "Foo" ∧
    BlePacket.device_name zeroAdBle = none :=
  ⟨fun f₁ f₂ ad offset h1 h2 => deviceNameLoop_fuel_irrelevant f₁ f₂ ad offset h1 h2,
   fun ad fuel offset hz => deviceNameLoop_zero_stop ad fuel offset hz,
   fun ad fuel offset ht => deviceNameLoop_truncation_stop ad fuel offset ht,
   by decide, by decide⟩

/-- Witness for C6 instantiating every quantified part at concrete
inputs. -/
theorem device_name_spec_witness :
    (([6, 9, 70] : List Nat).length - 0 < 4 ∧
      ([6, 9, 70] : List Nat).length - 0 < 7 ∧
      BlePacket.deviceNameLoop [6, 9, 70] 4 0
        = BlePacket.deviceNameLoop [6, 9, 70] 7 0) ∧
    (([0, 9, 70] : List Nat).getD 0 0 = 0 ∧
      BlePacket.deviceNameLoop [0, 9, 70] 3 0 = none) ∧
    (([5] : List Nat).length ≤ 0 + 1 ∧
      BlePacket.deviceNameLoop [5] 3 0 = none) ∧
    BlePacket.device_name fooBle = some "Foo" ∧
    BlePacket.device_name zeroAdBle = none :=
  ⟨⟨by decide, by decide,
    device_name_spec.1 4 7 [6, 9, 70] 0 (by decide) (by decide)⟩,
   ⟨by decide, device_name_spec.2.1 [0, 9, 70] 2 0 (by decide)⟩,
   ⟨by decide, device_name_spec.2.2.1 [5] 2 0 (by decide)⟩,
   device_name_spec.2.2.2.1, device_name_spec.2.2.2.2⟩

/-- Whatever `refresh_device_info` returns, the handle is untouched; on
success the device info is populated; on error the state is returned
unchanged. -/
theorem refresh_state (env : UsbEnv) (d : UbertoothDevice)
    (tr : List Transfer) :
    ∀ r d' tr', UbertoothDevice.refresh_device_info env d tr = (r, d', tr') →
      d'.handle = d.handle ∧
      (r = .ok () → d'.device_info.isSome = true) ∧
      (∀ e, r = .error e → d' = d) := by
  intro r d' tr' hr
  unfold UbertoothDevice.refresh_device_info at hr
  rcases hb : UbertoothDevice.get_board_id env d tr with ⟨rb, tr1⟩
  rcases rb with e | board
  · simp [hb] at hr
    obtain ⟨h1, h2, h3⟩ := hr
    subst h1; subst h2
    simp
  · rcases hf : UbertoothDevice.get_firmware_version env d tr1 with ⟨rf, tr2⟩
    rcases rf with e | fw
    · simp [hb, hf] at hr
      obtain ⟨h1, h2, h3⟩ := hr
      subst h1; subst h2
      simp
    · simp [hb, hf] at hr
      obtain ⟨h1, h2, h3⟩ := hr
      subst h1; subst h2
      simp



/-- Counterexample to C1 as stated: on a transport where open and claim
succeed but the mandatory board-id read times out, `connect` returns an
error, yet the returned state retains the handle — `is_connected()` is
`true` and `bulk_read` does not fail with `NotOpen`. -/
theorem connect_partial_failure_counterexample :
    UbertoothDevice.connect envBoardFail UbertoothDevice.new 0 []
      = (.error .Timeout,
         { handle := some (), device_info := none, device_index := 0 },
         [Transfer.ctrlIn CMD_GET_BOARD_ID]) ∧
    (UbertoothDevice.connect envBoardFail UbertoothDevice.new 0 []).2.1.is_connected
      = true ∧
    (UbertoothDevice.bulk_read envBoardFail
        (UbertoothDevice.connect envBoardFail UbertoothDevice.new 0 []).2.1 []).1
      = .ok [] :=
  ⟨rfl, rfl, rfl⟩

/-- C1 (amended): `connect` on a disconnected manager either fully
succeeds with the handle stored and DeviceInfo populated, or fails; a
failure during enumeration, open, kernel-driver detach or claim leaves
the state unchanged (no handle retained), but a failure of the mandatory
identity reads after open+claim returns the error with the handle still
stored (`is_connected()` is subsequently `true`). -/
theorem connect_spec (env : UsbEnv) (d : UbertoothDevice) (idx : Nat)
    (tr : List Transfer) (hd : d.handle = none) :
    (env.deviceCount = 0 ∨ env.deviceCount ≤ idx ∨ env.openErr ≠ none ∨
        (env.kernelDriverActive = true ∧ env.detachErr ≠ none) ∨
        env.claimErr ≠ none →
      ∃ e, UbertoothDevice.connect env d idx tr = (.error e, d, tr)) ∧
    (∀ d' tr', UbertoothDevice.connect env d idx tr = (.ok (), d', tr') →
      d'.handle = some () ∧ d'.device_info.isSome = true) ∧
    (env.deviceCount ≠ 0 → idx < env.deviceCount → env.openErr = none →
      (env.kernelDriverActive = true → env.detachErr = none) →
      env.claimErr = none →
      ∀ e d' tr',
        UbertoothDevice.connect env d idx tr = (.error e, d', tr') →
        d'.handle = some () ∧ d'.is_connected = true) := by
  have hds : d.handle.isSome = false := by simp [hd]
  refine ⟨?_, ?_, ?_⟩
  · intro hfail
    by_cases h0 : env.deviceCount = 0
    · exact ⟨.DeviceNotFound, by simp [UbertoothDevice.connect, hds, h0]⟩
    by_cases h1 : env.deviceCount ≤ idx
    · exact ⟨.DeviceNotFound, by simp [UbertoothDevice.connect, hds, h0, h1]⟩
    cases hoe : env.openErr with
    | some e =>
      cases e with
      | Access =>
        exact ⟨.PermissionDenied,
               by simp [UbertoothDevice.connect, hds, h0, h1, hoe]⟩
      | Timeout =>
        exact ⟨.UsbLibrary .Timeout,
               by simp [UbertoothDevice.connect, hds, h0, h1, hoe]⟩
      | NoDevice =>
        exact ⟨.UsbLibrary .NoDevice,
               by simp [UbertoothDevice.connect, hds, h0, h1, hoe]⟩
      | Io =>
        exact ⟨.UsbLibrary .Io,
               by simp [UbertoothDevice.connect, hds, h0, h1, hoe]⟩
      | Other =>
        exact ⟨.UsbLibrary .Other,
               by simp [UbertoothDevice.connect, hds, h0, h1, hoe]⟩
    | none =>
      cases hdk : (if env.kernelDriverActive then env.detachErr else none) with
      | some e =>
        exact ⟨.UsbLibrary e,
               by simp [UbertoothDevice.connect, hds, h0, h1, hoe, hdk]⟩
      | none =>
        cases hce : env.claimErr with
        | some e =>
          exact ⟨.UsbLibrary e,
                 by simp [UbertoothDevice.connect, hds, h0, h1, hoe, hdk, hce]⟩
        | none =>
          exfalso
          rcases hfail with h | h | h | ⟨hk, hde⟩ | h
          · exact h0 h
          · exact h1 h
          · exact h hoe
          · rw [hk] at hdk
            simp at hdk
            exact hde hdk
          · exact h hce
  · intro d' tr' hc
    by_cases h0 : env.deviceCount = 0
    · simp [UbertoothDevice.connect, hds, h0] at hc
    by_cases h1 : env.deviceCount ≤ idx
    · simp [UbertoothDevice.connect, hds, h0, h1] at hc
    cases hoe : env.openErr with
    | some e =>
      cases e <;> simp [UbertoothDevice.connect, hds, h0, h1, hoe] at hc
    | none =>
      cases hdk : (if env.kernelDriverActive then env.detachErr else none) with
      | some e => simp [UbertoothDevice.connect, hds, h0, h1, hoe, hdk] at hc
      | none =>
        cases hce : env.claimErr with
        | some e =>
          simp [UbertoothDevice.connect, hds, h0, h1, hoe, hdk, hce] at hc
        | none =>
          simp only [UbertoothDevice.connect, hds] at hc
          simp [h0, h1, hoe, hdk, hce] at hc
          obtain ⟨hh, hinfo, -⟩ := refresh_state env
            { d with handle := some (), device_index := idx } tr
            (.ok ()) d' tr' hc
          exact ⟨by simpa using hh, hinfo rfl⟩
  · intro h0 h1 hoe hkd hce e d' tr' hc
    have hdk : (if env.kernelDriverActive then env.detachErr else none)
        = none := by
      cases hk : env.kernelDriverActive
      · simp
      · simp [hkd hk]
    simp only [UbertoothDevice.connect, hds] at hc
    simp [h0, show ¬ env.deviceCount ≤ idx by omega, hoe, hdk, hce] at hc
    obtain ⟨hh, -, hok⟩ := refresh_state env
      { d with handle := some (), device_index := idx } tr
      (.error e) d' tr' hc
    have hsome : d'.handle = some () := by simpa using hh
    exact ⟨hsome, by simp [UbertoothDevice.is_connected, hsome]⟩

/-- Witness for C1 (amended): with no device present, the failed connect
leaves no handle; on an all-good transport the connect succeeds with the
info populated; on the board-id-timeout transport the connect fails yet
retains the handle. -/
theorem connect_spec_witness :
    (UbertoothDevice.connect envZero UbertoothDevice.new 0 []).2.1.handle
      = none ∧
    (UbertoothDevice.connect envOk UbertoothDevice.new 0 []).2.1.device_info.isSome
      = true ∧
    (UbertoothDevice.connect envBoardFail UbertoothDevice.new 0 []).2.1.handle
      = some () ∧
    (UbertoothDevice.connect envBoardFail UbertoothDevice.new 0 []).2.1.is_connected
      = true := by
  obtain ⟨e, he⟩ := (connect_spec envZero UbertoothDevice.new 0 [] rfl).1
    (Or.inl rfl)
  have h2 := ((connect_spec envOk UbertoothDevice.new 0 [] rfl).2.1
    (UbertoothDevice.connect envOk UbertoothDevice.new 0 []).2.1
    (UbertoothDevice.connect envOk UbertoothDevice.new 0 []).2.2 rfl).2
  have h3 := (connect_spec envBoardFail UbertoothDevice.new 0 [] rfl).2.2
    (by norm_num [envBoardFail, envOk]) (by norm_num [envBoardFail, envOk])
    rfl (by intro hk; simp [envBoardFail, envOk] at hk) rfl
    .Timeout
    { handle := some (), device_info := none, device_index := 0 }
    [Transfer.ctrlIn CMD_GET_BOARD_ID] rfl
  refine ⟨?_, h2, h3.1, h3.2⟩
  rw [he]
  rfl

/-- C8: at most one device handle is open at a time — `connect` while a
handle exists fails with `AlreadyOpen` leaving the state (and the
existing handle) untouched and issuing no transfer; and every raw
transfer primitive invoked on a fresh, never-connected manager fails
with `NotOpen` without performing any transfer (the trace is
unchanged). -/
theorem single_handle_invariant (env : UsbEnv) (d : UbertoothDevice)
    (idx : Nat) (tr : List Transfer) (h : d.handle = some ()) :
    UbertoothDevice.connect env d idx tr = (.error .AlreadyOpen, d, tr) ∧
    (∀ req v tr',
      UbertoothDevice.control_transfer env UbertoothDevice.new req v tr'
        = (.error .NotOpen, tr')) ∧
    (∀ req n tr',
      UbertoothDevice.control_transfer_read env UbertoothDevice.new req n tr'
        = (.error .NotOpen, tr')) ∧
    (∀ tr', UbertoothDevice.bulk_read env UbertoothDevice.new tr'
        = (.error .NotOpen, tr')) ∧
    (∀ tr', UbertoothDevice.bulk_write env UbertoothDevice.new tr'
        = (.error .NotOpen, tr')) := by
  refine ⟨?_, fun req v tr' => rfl, fun req n tr' => rfl,
          fun tr' => rfl, fun tr' => rfl⟩
  simp [UbertoothDevice.connect, h]

/-- Witness for C8 on the all-good transport: a second connect on an
already-connected state fails with `AlreadyOpen` leaving it unchanged,
and a bulk read on a fresh manager fails with `NotOpen` with an empty
trace. -/
theorem single_handle_invariant_witness :
    UbertoothDevice.connect envOk devConn 0 [] =
      (.error .AlreadyOpen, devConn, []) ∧
    UbertoothDevice.bulk_read envOk UbertoothDevice.new [] =
      (.error .NotOpen, []) := by
  have h := single_handle_invariant envOk devConn 0 [] rfl
  exact ⟨h.1, h.2.2.2.1 []⟩

/-- Counterexample to C2 as stated: channel 40 is ≤ 78, yet
`configure_channel` rejects it with `InvalidParameter` issuing zero
transfers, even on a transport that accepts every transfer (the code
validates against `BLE_CHANNEL_MAX = 39`, not 78). -/
theorem configure_channel_counterexample :
    (40 : Nat) ≤ 78 ∧
    configure_channel envOk devConn 40 []
      = (.error .InvalidParameter, ([] : List Transfer)) :=
  ⟨by norm_num, rfl⟩

/-- C2 (amended): `configure_channel` validates the channel against
`BLE_CHANNEL_MAX = 39` before any transfer — for every channel ≤ 39 it
passes validation, issues exactly one control transfer
(`CMD_SET_CHANNEL`) and, when that transfer succeeds, returns success
with `frequency_mhz = 2402 + channel` (so channel 37 yields 2439); for
every channel > 39 (e.g. 40 or 79) it fails with `InvalidParameter` and
issues zero control transfers. -/
theorem configure_channel_spec (env : UsbEnv) (d : UbertoothDevice)
    (channel : Nat) (tr : List Transfer) (hd : d.handle = some ()) :
    (channel ≤ BLE_CHANNEL_MAX →
      ∀ n, env.ctrlWrite CMD_SET_CHANNEL channel = .ok n →
      configure_channel env d channel tr =
        (.ok { channel := channel, frequency_mhz := 2402 + channel },
         tr ++ [.ctrlOut CMD_SET_CHANNEL channel])) ∧
    (BLE_CHANNEL_MAX < channel →
      configure_channel env d channel tr = (.error .InvalidParameter, tr)) := by
  constructor
  · intro hle n hok
    simp [configure_channel, show ¬ channel > BLE_CHANNEL_MAX by omega,
          UbertoothDevice.set_channel, UbertoothDevice.control_transfer,
          hd, hok]
  · intro hgt
    simp [configure_channel, hgt]

/-- Witness for C2 (amended): channel 37 succeeds with 2439 MHz and one
`CMD_SET_CHANNEL` transfer; channel 79 is rejected with no transfer. -/
theorem configure_channel_spec_witness :
    configure_channel envOk devConn 37 [] =
      (.ok { channel := 37, frequency_mhz := 2439 },
       [Transfer.ctrlOut CMD_SET_CHANNEL 37]) ∧
    configure_channel envOk devConn 79 [] =
      (.error .InvalidParameter, ([] : List Transfer)) := by
  have h1 := (configure_channel_spec envOk devConn 37 [] rfl).1
    (by norm_num [BLE_CHANNEL_MAX]) 0 rfl
  have h2 := (configure_channel_spec envOk devConn 79 [] rfl).2
    (by norm_num [BLE_CHANNEL_MAX])
  exact ⟨by simpa using h1, h2⟩

/-- A non-timeout outcome in the middle of the read schedule cuts the
scan loop short: the remainder of the schedule is never consumed. -/
theorem scanLoop_break (e : UsbError) (he : e ≠ .Timeout) :
    ∀ (pre : List ReadOutcome) (st : ScanResult) (rest : List ReadOutcome),
      scanLoop st (pre ++ .error e :: rest) = scanLoop st pre := by
  intro pre
  induction pre with
  | nil =>
    intro st rest
    simp [scanLoop, he]
  | cons r pre ih =>
    intro st rest
    cases r with
    | ok data =>
      simp only [List.cons_append, scanLoop]
      exact ih _ _
    | error e' =>
      by_cases h' : e' = .Timeout
      · subst h'
        simp only [List.cons_append, scanLoop, if_pos rfl]
        exact ih _ _
      · simp [scanLoop, h']

/-- Looking a key up after `storeStats` finds the stored entry for that
key and is unchanged for every other key. -/
theorem lookup_store (l : List (String × DeviceStats)) (mac k : String)
    (v : DeviceStats) :
    lookupStats (storeStats l mac v) k
      = if k = mac then some v else lookupStats l k := by
  induction l with
  | nil =>
    simp only [storeStats, lookupStats]
    by_cases h : k = mac
    · subst h
      simp
    · have h' : ¬ mac = k := fun hh => h hh.symm
      simp [h, h']
  | cons p rest ih =>
    obtain ⟨pk, pv⟩ := p
    simp only [storeStats]
    by_cases h1 : pk = mac
    · subst h1
      simp only [if_pos rfl, lookupStats]
      by_cases h2 : k = pk
      · subst h2
        simp
      · have h2' : ¬ pk = k := fun hh => h2 hh.symm
        simp [h2, h2']
    · simp only [if_neg h1, lookupStats]
      by_cases h2 : pk = k
      · subst h2
        have hkm : ¬ pk = mac := h1
        simp [hkm]
      · simp [h2, ih]

/-- Processing one read preserves the RSSI-average invariant: the only
entry written is `updateStats`'s result, whose average is the truncating
division of the new sum by the new count. -/
theorem processPacket_inv (st : ScanResult) (data : List Nat)
    (hinv : StatsInv st) : StatsInv (processPacket st data) := by
  unfold processPacket
  split
  · split
    · exact hinv
    · split
      · split
        · exact hinv
        · split
          · exact fun mac stats h => hinv mac stats h
          · intro mac stats h
            simp only [lookup_store] at h
            split at h
            · cases h
              refine ⟨?_, ?_⟩
              · simp [updateStats]
              · simp [updateStats]
            · exact hinv mac stats h
      · exact hinv
  · exact hinv

/-- The whole capture loop preserves the RSSI-average invariant. -/
theorem scanLoop_inv (reads : List ReadOutcome) :
    ∀ st, StatsInv st → StatsInv (scanLoop st reads) := by
  induction reads with
  | nil => exact fun st h => h
  | cons r rest ih =>
    intro st h
    cases r with
    | ok data =>
      exact ih _ (processPacket_inv st data h)
    | error e =>
      by_cases he : e = .Timeout
      · subst he
        simp only [scanLoop, if_pos rfl]
        exact ih _ h
      · simp only [scanLoop, if_neg he]
        exact h

/-- Counterexample to C3 as stated: a scan whose loop ends early on
`Disconnected` with one packet accumulated, on a transport where the
device stays gone, does not make `btle_scan` return a success result
with that partial `ScanResult` — the post-loop `CMD_STOP` transfer fails
and its error fails the whole call. -/
theorem btle_scan_counterexample :
    scan_ble_packets [.ok (samplePkt 196), .error .Disconnected]
      = .ok (scanLoop ScanResult.empty [.ok (samplePkt 196)]) ∧
    (scanLoop ScanResult.empty [.ok (samplePkt 196)]).total_packets = 1 ∧
    (btle_scan envDisconnect devConn 37 false false
        [.ok (samplePkt 196), .error .Disconnected] []).1
      = .error .Disconnected :=
  ⟨rfl, rfl, rfl⟩

/-- C3 (amended): inside the capture loop a bulk-read `Timeout` is
recoverable (the loop continues with the next read), while every
non-timeout transport error terminates the loop early, and the loop
helper `scan_ble_packets` still returns success with the `ScanResult`
accumulated before the error.  The surrounding `btle_scan` then issues a
`CMD_STOP` transfer and, with `save_pcap`, creates the capture
directory: when these post-loop steps succeed the call returns success
containing the accumulated (partial) `ScanResult`, but a failing stop
transfer fails the whole call with the mapped transport error, and a
failing directory creation fails it with an IO error. -/
theorem btle_scan_spec :
    (∀ (pre rest : List ReadOutcome) (e : UsbError), e ≠ .Timeout →
      scan_ble_packets (pre ++ .error e :: rest)
        = .ok (scanLoop ScanResult.empty pre)) ∧
    (∀ (st : ScanResult) (rest : List ReadOutcome),
      scanLoop st (.error .Timeout :: rest) = scanLoop st rest) ∧
    (∀ (env : UsbEnv) (d : UbertoothDevice) (channel : Nat)
        (save_pcap mkdirOk : Bool) (reads : List ReadOutcome)
        (tr : List Transfer),
      d.handle = some () →
      (channel = 37 ∨ channel = 38 ∨ channel = 39) →
      (∃ n, env.ctrlWrite CMD_SET_MODULATION MOD_BT_LOW_ENERGY = .ok n) →
      (∃ n, env.ctrlWrite CMD_SET_CHANNEL channel = .ok n) →
      (∃ n, env.ctrlWrite CMD_BTLE_SET_ACCESS_ADDRESS 0 = .ok n) →
      (∃ n, env.ctrlWrite CMD_BTLE_SNIFF_AA 0 = .ok n) →
      ((∃ n, env.ctrlWrite CMD_STOP 0 = .ok n) →
        (save_pcap = true → mkdirOk = true) →
        (btle_scan env d channel save_pcap mkdirOk reads tr).1
          = .ok (scanLoop ScanResult.empty reads)) ∧
      (∀ re, env.ctrlWrite CMD_STOP 0 = .error re →
        (btle_scan env d channel save_pcap mkdirOk reads tr).1
          = .error (UbertoothDevice.mapCtrlErr re)) ∧
      ((∃ n, env.ctrlWrite CMD_STOP 0 = .ok n) →
        save_pcap = true → mkdirOk = false →
        (btle_scan env d channel save_pcap mkdirOk reads tr).1
          = .error .Io)) := by
  refine ⟨?_, ?_, ?_⟩
  · intro pre rest e he
    unfold scan_ble_packets
    rw [scanLoop_break e he]
  · intro st rest
    simp [scanLoop]
  · intro env d channel save_pcap mkdirOk reads tr hd hch hm hc ha hs
    obtain ⟨n1, h1⟩ := hm
    obtain ⟨n2, h2⟩ := hc
    obtain ⟨n3, h3⟩ := ha
    obtain ⟨n4, h4⟩ := hs
    have hchv : ¬(channel ≠ 37 ∧ channel ≠ 38 ∧ channel ≠ 39) := by
      rcases hch with h | h | h <;> simp [h]
    refine ⟨?_, ?_, ?_⟩
    · intro hstop hmk
      obtain ⟨n5, h5⟩ := hstop
      have hif : (save_pcap && !mkdirOk) = false := by
        cases hsp : save_pcap
        · simp
        · simp [hmk hsp]
      simp [btle_scan, hchv, UbertoothDevice.set_modulation,
            UbertoothDevice.set_channel, UbertoothDevice.stop,
            UbertoothDevice.control_transfer, hd, h1, h2, h3, h4, h5,
            scan_ble_packets, hif]
    · intro re h5
      simp [btle_scan, hchv, UbertoothDevice.set_modulation,
            UbertoothDevice.set_channel, UbertoothDevice.stop,
            UbertoothDevice.control_transfer, hd, h1, h2, h3, h4, h5,
            scan_ble_packets]
    · intro hstop hsp hmk
      obtain ⟨n5, h5⟩ := hstop
      simp [btle_scan, hchv, UbertoothDevice.set_modulation,
            UbertoothDevice.set_channel, UbertoothDevice.stop,
            UbertoothDevice.control_transfer, hd, h1, h2, h3, h4, h5,
            scan_ble_packets, hsp, hmk]

/-- Witness for C3 (amended): on the all-good transport a scan whose
schedule hits `Disconnected` after one packet still ends with the whole
call succeeding and carrying the one-packet partial result; on the
disconnecting transport the same scan fails the whole call with
`Disconnected` from the stop transfer. -/
theorem btle_scan_spec_witness :
    (btle_scan envOk devConn 37 true true
        [.ok (samplePkt 196), .error .Disconnected, .ok (samplePkt 206)]
        []).1
      = .ok (scanLoop ScanResult.empty [.ok (samplePkt 196)]) ∧
    (btle_scan envDisconnect devConn 37 false false
        [.ok (samplePkt 196), .error .Disconnected] []).1
      = .error .Disconnected := by
  have hfull : scanLoop ScanResult.empty
      [.ok (samplePkt 196), .error .Disconnected, .ok (samplePkt 206)]
      = scanLoop ScanResult.empty [.ok (samplePkt 196)] := by
    have h := btle_scan_spec.1 [.ok (samplePkt 196)] [.ok (samplePkt 206)]
      .Disconnected (by decide)
    simpa [scan_ble_packets] using h
  have hsucc := (btle_scan_spec.2.2 envOk devConn 37 true true
      [.ok (samplePkt 196), .error .Disconnected, .ok (samplePkt 206)] []
      rfl (Or.inl rfl) ⟨0, rfl⟩ ⟨0, rfl⟩ ⟨0, rfl⟩ ⟨0, rfl⟩).1
      ⟨0, rfl⟩ (fun _ => rfl)
  have hfail := (btle_scan_spec.2.2 envDisconnect devConn 37 false false
      [.ok (samplePkt 196), .error .Disconnected] []
      rfl (Or.inl rfl) ⟨0, rfl⟩ ⟨0, rfl⟩ ⟨0, rfl⟩ ⟨0, rfl⟩).2.1
      .NoDevice rfl
  exact ⟨hfull ▸ hsucc, hfail⟩

/-- C9: the per-device running RSSI average satisfies
`rssi_avg = rssi_sum / packet_count` (Rust's truncating integer
division) after every update, with `packet_count` incremented by exactly
1 and `rssi_sum` by the packet's RSSI per matching packet; every device
entry reachable by a scan from the empty state satisfies the invariant;
and three packets from one MAC with RSSI −60, −50, −40 end with
`rssi_avg` exactly −50. -/
theorem rssi_average_spec :
    (∀ (stats : DeviceStats) (rssi : Int) (name : Option String),
      (updateStats stats rssi name).packet_count = stats.packet_count + 1 ∧
      (updateStats stats rssi name).rssi_sum = stats.rssi_sum + rssi ∧
      (updateStats stats rssi name).rssi_avg
        = (updateStats stats rssi name).rssi_sum.tdiv
            ((updateStats stats rssi name).packet_count : Int)) ∧
    (∀ (reads : List ReadOutcome) (mac : String) (stats : DeviceStats),
      lookupStats (scanLoop ScanResult.empty reads).devices mac
          = some stats →
      stats.rssi_avg = stats.rssi_sum.tdiv (stats.packet_count : Int) ∧
      0 < stats.packet_count) ∧
    lookupStats (scanLoop ScanResult.empty
        [.ok (samplePkt 196), .ok (samplePkt 206),
         .ok (samplePkt 216)]).devices
      "06:05:04:03:02:01"
      = some { address_type := "public", name := none, rssi_sum := -150,
               packet_count := 3, rssi_avg := -50 } := by
  refine ⟨?_, ?_, by rfl⟩
  · intro stats rssi name
    exact ⟨rfl, rfl, rfl⟩
  · intro reads mac stats h
    have hempty : StatsInv ScanResult.empty := by
      intro mac stats h
      simp [ScanResult.empty, lookupStats] at h
    exact scanLoop_inv reads ScanResult.empty hempty mac stats h

/-- Witness for C9 at the three-packet scan: the looked-up entry's
average −50 is the truncating division of −150 by 3 and its count is
positive. -/
theorem rssi_average_spec_witness :
    ((-50 : Int) = (-150 : Int).tdiv ((3 : Nat) : Int) ∧ 0 < (3 : Nat)) ∧
    (({ address_type := "public", name := none, rssi_sum := -100,
        packet_count := 1, rssi_avg := 0 } : DeviceStats).packet_count + 1
      = 2) :=
  ⟨rssi_average_spec.2.1
      [.ok (samplePkt 196), .ok (samplePkt 206), .ok (samplePkt 216)]
      "06:05:04:03:02:01"
      { address_type := "public", name := none, rssi_sum := -150,
        packet_count := 3, rssi_avg := -50 }
      (by rfl),
   by norm_num⟩

/-- Witness for C5 at PDU type 7 (rejected) and a concrete 6-byte
address (accepted and rendered reversed). -/
theorem advertiser_address_spec_witness :
    BlePacket.advertiser_address advPkt7 = none ∧
    BlePacket.advertiser_address advPkt0 = some [1, 2, 3, 4, 5, 6] ∧
    macString [1, 2, 3, 4, 5, 6] = "06:05:04:03:02:01" := by
  refine ⟨(advertiser_address_spec advPkt7).1 (by norm_num [advPkt7]), ?_,
          (advertiser_address_spec advPkt0).2.2⟩
  have h := (advertiser_address_spec advPkt0).2.1
    (by norm_num [advPkt0]) (by norm_num [advPkt0])
  rw [h]
  decide

end Ubertooth
